import Mathlib

/-!
Verification development for the supplier-prices service (`main-app.py`).

The service fetches paginated product data from a vendor HTTP API,
projects it to CSV rows under two projections (price-only and full
detail), writes the rows to a local CSV file, uploads the file over FTP
and posts status messages to a Slack webhook.  The definitions below are
a shallow embedding of the Python source: dictionaries with optional
keys become structures of `Option` fields, Python exceptions become
`Except` values, and the request handlers become pure functions from an
environment describing the outcome of every external interaction to the
HTTP response together with the observable side effects (webhook
messages, local-file state).
-/

namespace SupplierPrices

/-- Python runtime errors that the projection loops can raise. -/
inductive PyErr where
  /-- `UnboundLocalError`: a local variable referenced before assignment. -/
  | unboundLocal (var : String)
  /-- `IndexError`: list index out of range. -/
  | indexError
  /-- An OS-level error raised while opening or writing the CSV file. -/
  | osError
  deriving Repr, DecidableEq

/-- One entry of a product's `suppliers` list.  Only the `name` and
`price` keys are consulted; either may be absent (`dict.get` with no
default returns `None`). -/
structure Supplier where
  name : Option String
  price : Option String
  deriving Repr, DecidableEq

/-- One entry of a product's `variants_list`.
`article_ean` and `seller_sku_id` model `variant.get(...)` (absent key
gives `None`).  `name_german` is the `GERMAN` entry of the `name` dict
(`none` when the dict or the key is absent).  `category_german` is the
`GERMAN` entry of the `category_tree` dict (`[]` when absent, matching
the `.get(..., [])` defaults).  `multimedia` is `none` when the
`multimedia` key is absent (the code then defaults to `[{}]`); when
present, each element is modelled by its `source_url` value. -/
structure Variant where
  article_ean : Option String
  seller_sku_id : Option String
  name_german : Option String
  category_german : List String
  base_price_exclusive_tax : Option String
  multimedia : Option (List (Option String))
  deriving Repr, DecidableEq

/-- One item of a fetched page.  `suppliers` and `variants_list` model
`item.get(..., [])` (absent key gives the empty list). -/
structure Product where
  brand_name : Option String
  tax_in_percentage : Option String
  suppliers : List Supplier
  variants_list : List Variant
  deriving Repr, DecidableEq

/-- One page of products returned by a single paginated API call. -/
abbrev Page := List Product

/-- Python truthiness of an optional string: `None` and `""` are falsy. -/
def truthyStr : Option String → Bool
  | none => false
  | some s => !s.isEmpty

/-- A data row of the price CSV: `[article_ean, supplier_price]`.
`supplier_price` is the raw value of `supplier_info.get("price")`, which
may be `None`. -/
structure PriceRow where
  gtin : String
  supplier_price : Option String
  deriving Repr, DecidableEq

/-- The value of the local variable `supplier_price` (resp.
`supplier_name`): `none` when the variable has never been assigned,
`some v` once it holds the Python value `v` (itself possibly `None`). -/
abbrev PyLocal := Option (Option String)

/-- `if suppliers_data and isinstance(suppliers_data, list): supplier_price =
suppliers_data[0].get("price")` — the local is reassigned only when the
product's suppliers list is non-empty; otherwise it keeps its value. -/
def updatePrice (sp : PyLocal) (item : Product) : PyLocal :=
  match item.suppliers with
  | [] => sp
  | s :: _ => some s.price

/-- The inner variant loop of `write_to_csv`: for each variant with a
truthy `article_ean`, append `[article_ean, supplier_price]`; referencing
`supplier_price` while unbound raises `UnboundLocalError`. -/
def priceRowsVariants : PyLocal → List Variant → Except PyErr (List PriceRow)
  | _, [] => .ok []
  | sp, v :: vs =>
    if truthyStr v.article_ean then
      match sp with
      | none => .error (.unboundLocal "supplier_price")
      | some p =>
        match priceRowsVariants sp vs with
        | .error e => .error e
        | .ok rest => .ok (⟨v.article_ean.getD "", p⟩ :: rest)
    else priceRowsVariants sp vs

/-- The product loop of `write_to_csv`, threading the `supplier_price`
local through the iteration.  Returns the rows together with the final
state of the local. -/
def priceRowsProducts : PyLocal → List Product → Except PyErr (List PriceRow × PyLocal)
  | sp, [] => .ok ([], sp)
  | sp, item :: rest =>
    let sp2 := updatePrice sp item
    match priceRowsVariants sp2 item.variants_list with
    | .error e => .error e
    | .ok rows =>
      match priceRowsProducts sp2 rest with
      | .error e => .error e
      | .ok (more, sp3) => .ok (rows ++ more, sp3)

/-- The outer page loop of `write_to_csv`: the `supplier_price` local
lives at function scope, so its value carries over across pages. -/
def priceRowsPages : PyLocal → List Page → Except PyErr (List PriceRow × PyLocal)
  | sp, [] => .ok ([], sp)
  | sp, page :: rest =>
    match priceRowsProducts sp page with
    | .error e => .error e
    | .ok (rows, sp2) =>
      match priceRowsPages sp2 rest with
      | .error e => .error e
      | .ok (more, sp3) => .ok (rows ++ more, sp3)

/-- The data rows `write_to_csv` assembles for a fetched page sequence
(the header row `["GTIN","supplier_price"]` is not modelled as data). -/
def priceRows (data : List Page) : Except PyErr (List PriceRow) :=
  Except.map Prod.fst (priceRowsPages none data)

/-- Outcome of `write_to_csv`: the returned boolean and the written file,
`none` when no file was written. -/
structure CsvOutcome where
  returned : Bool
  file : Option (List PriceRow)
  deriving Repr, DecidableEq

/-- `write_to_csv(data, filename)`: returns `False` immediately for
falsy `data` without touching the filesystem; otherwise assembles the
rows (which may raise) and writes them.  `csvIoOk` is false when the
`open`/`write` at the end raises an `OSError`. -/
def write_to_csv (csvIoOk : Bool) (data : List Page) : Except PyErr CsvOutcome :=
  if data.isEmpty then .ok ⟨false, none⟩
  else
    match priceRows data with
    | .error e => .error e
    | .ok rows => if csvIoOk then .ok ⟨true, some rows⟩ else .error .osError

/-- The head supplier's `price` value of a product (`none` when the
`price` key is absent); meaningful only when `suppliers` is non-empty. -/
def headPriceVal (item : Product) : Option String :=
  match item.suppliers with
  | [] => none
  | s :: _ => s.price

/-- The price projection as the specification words it: one row per
variant with a non-empty EAN, pairing the EAN with the price of the
variant's own product's first supplier, in page→product→variant
traversal order. -/
def specPriceRows (data : List Page) : List PriceRow :=
  data.flatMap fun page =>
    page.flatMap fun item =>
      item.variants_list.filterMap fun v =>
        if truthyStr v.article_ean then some ⟨v.article_ean.getD "", headPriceVal item⟩
        else none

/-! ### The detail projection (the row-building loop of `/fetch-products`) -/

/-- `variant.get("name", {}).get("GERMAN", "")`. -/
def variantName (v : Variant) : String := v.name_german.getD ""

/-- Python `str.strip()` on the underlying character list: drop leading
and trailing whitespace. -/
def stripChars (l : List Char) : List Char :=
  (((l.dropWhile Char.isWhitespace).reverse).dropWhile Char.isWhitespace).reverse

/-- Python `str.strip()`. -/
def pyStrip (s : String) : String := String.mk (stripChars s.data)

/-- `category_list[0].strip() if category_list else ""`. -/
def variantCategory (v : Variant) : String :=
  match v.category_german with
  | [] => ""
  | c :: _ => pyStrip c

/-- `variant.get("multimedia", [{}])[0].get("source_url", "")`: an absent
`multimedia` key defaults to `[{}]` and yields `""`, but a present,
empty list raises `IndexError` at the `[0]` subscript. -/
def variantImage (v : Variant) : Except PyErr String :=
  match v.multimedia with
  | none => .ok ""
  | some [] => .error .indexError
  | some (m :: _) => .ok (m.getD "")

/-- A data row of the detail CSV:
`[article_ean, seller_sku_id, name, supplier_name, Brand, Tax, category, Image]`. -/
structure DetailRow where
  gtin : String
  sku : Option String
  product_name : String
  supplier : Option String
  brand : Option String
  tax : Option String
  category : String
  image : String
  deriving Repr, DecidableEq

/-- The `supplier_name` local of `/fetch-products`: reassigned only when
the product's suppliers list is non-empty. -/
def updateName (sn : PyLocal) (item : Product) : PyLocal :=
  match item.suppliers with
  | [] => sn
  | s :: _ => some s.name

/-- The variant loop of `/fetch-products`: the `Image` subscript runs
before the EAN test (so it can raise for EAN-less variants too), and a
row is appended only for truthy EANs, referencing the `supplier_name`
local (unbound reference raises `UnboundLocalError`). -/
def detailRowsVariants : PyLocal → Option String → Option String → List Variant →
    Except PyErr (List DetailRow)
  | _, _, _, [] => .ok []
  | sn, brand, tax, v :: vs =>
    match variantImage v with
    | .error e => .error e
    | .ok image =>
      if truthyStr v.article_ean then
        match sn with
        | none => .error (.unboundLocal "supplier_name")
        | some s =>
          match detailRowsVariants sn brand tax vs with
          | .error e => .error e
          | .ok rest =>
            .ok (⟨v.article_ean.getD "", v.seller_sku_id, variantName v, s, brand, tax,
              variantCategory v, image⟩ :: rest)
      else detailRowsVariants sn brand tax vs

/-- The product loop of `/fetch-products`: `Brand` and `Tax` are read
afresh from each product, while `supplier_name` threads through. -/
def detailRowsProducts : PyLocal → List Product → Except PyErr (List DetailRow × PyLocal)
  | sn, [] => .ok ([], sn)
  | sn, item :: rest =>
    let sn2 := updateName sn item
    match detailRowsVariants sn2 item.brand_name item.tax_in_percentage item.variants_list with
    | .error e => .error e
    | .ok rows =>
      match detailRowsProducts sn2 rest with
      | .error e => .error e
      | .ok (more, sn3) => .ok (rows ++ more, sn3)

/-- The outer page loop of the detail projection. -/
def detailRowsPages : PyLocal → List Page → Except PyErr (List DetailRow × PyLocal)
  | sn, [] => .ok ([], sn)
  | sn, page :: rest =>
    match detailRowsProducts sn page with
    | .error e => .error e
    | .ok (rows, sn2) =>
      match detailRowsPages sn2 rest with
      | .error e => .error e
      | .ok (more, sn3) => .ok (rows ++ more, sn3)

/-- The data rows the `/fetch-products` loop assembles for a fetched
page sequence. -/
def detailRows (data : List Page) : Except PyErr (List DetailRow) :=
  Except.map Prod.fst (detailRowsPages none data)

/-! ### Claim-side reference functions for the carried supplier locals -/

/-- The head-supplier `price` of the most recent product in the list
(scanning from the end) whose suppliers list is non-empty; `none` when
no product qualifies. -/
def lastBoundPrice : List Product → PyLocal
  | [] => none
  | p :: rest =>
    match lastBoundPrice rest with
    | some v => some v
    | none =>
      match p.suppliers with
      | [] => none
      | s :: _ => some s.price

/-- The head-supplier `name` of the most recent product in the list
whose suppliers list is non-empty; `none` when no product qualifies. -/
def lastBoundName : List Product → PyLocal
  | [] => none
  | p :: rest =>
    match lastBoundName rest with
    | some v => some v
    | none =>
      match p.suppliers with
      | [] => none
      | s :: _ => some s.name

/-- Row emission as claim C7 words it for the price projection, given
the price of the most recent suppliers-bearing product: a truthy-EAN
variant with no such product raises the unbound-variable error instead
of emitting its row. -/
def claimPriceEmit : PyLocal → List Variant → Except PyErr (List PriceRow)
  | _, [] => .ok []
  | pr, v :: vs =>
    if truthyStr v.article_ean then
      match pr with
      | none => .error (.unboundLocal "supplier_price")
      | some p =>
        match claimPriceEmit pr vs with
        | .error e => .error e
        | .ok rest => .ok (⟨v.article_ean.getD "", p⟩ :: rest)
    else claimPriceEmit pr vs

/-- Claim C7's reading of the price projection over the flattened
product sequence: the rows of each product use the head-supplier price
of the most recent product, up to and including itself in traversal
order, with a non-empty suppliers list. -/
def claimPriceAux : List Product → List Product → Except PyErr (List PriceRow)
  | _, [] => .ok []
  | prev, item :: rest =>
    match claimPriceEmit (lastBoundPrice (prev ++ [item])) item.variants_list with
    | .error e => .error e
    | .ok rows =>
      match claimPriceAux (prev ++ [item]) rest with
      | .error e => .error e
      | .ok more => .ok (rows ++ more)

/-- Claim C7's reading of the price projection of a page sequence. -/
def claimPriceRows (data : List Page) : Except PyErr (List PriceRow) :=
  claimPriceAux [] (data.flatMap id)

/-- Row emission as claim C7 words it for the detail projection, given
the name of the most recent suppliers-bearing product. -/
def claimDetailEmit : PyLocal → Option String → Option String → List Variant →
    Except PyErr (List DetailRow)
  | _, _, _, [] => .ok []
  | nm, brand, tax, v :: vs =>
    match variantImage v with
    | .error e => .error e
    | .ok image =>
      if truthyStr v.article_ean then
        match nm with
        | none => .error (.unboundLocal "supplier_name")
        | some s =>
          match claimDetailEmit nm brand tax vs with
          | .error e => .error e
          | .ok rest =>
            .ok (⟨v.article_ean.getD "", v.seller_sku_id, variantName v, s, brand, tax,
              variantCategory v, image⟩ :: rest)
      else claimDetailEmit nm brand tax vs

/-- Claim C7's reading of the detail projection over the flattened
product sequence. -/
def claimDetailAux : List Product → List Product → Except PyErr (List DetailRow)
  | _, [] => .ok []
  | prev, item :: rest =>
    match claimDetailEmit (lastBoundName (prev ++ [item])) item.brand_name
        item.tax_in_percentage item.variants_list with
    | .error e => .error e
    | .ok rows =>
      match claimDetailAux (prev ++ [item]) rest with
      | .error e => .error e
      | .ok more => .ok (rows ++ more)

/-- Claim C7's reading of the detail projection of a page sequence. -/
def claimDetailRows (data : List Page) : Except PyErr (List DetailRow) :=
  claimDetailAux [] (data.flatMap id)

/-! ### Paginated fetcher, retry model and webhook messages -/

/-- The eventual awaited result of one page request: a page (possibly
empty — the termination sentinel) or a raised exception. -/
inductive FetchOutcome where
  | ok (page : Page)
  | err
  deriving Repr, DecidableEq

/-- The `while True` loop of `fetch_all_data`: append non-empty pages,
stop at the first empty page, and swallow any exception by breaking out
of the loop. -/
def fetchLoop : List FetchOutcome → List Page
  | [] => []
  | .err :: _ => []
  | .ok p :: rest => if p.isEmpty then [] else p :: fetchLoop rest

/-- Webhook messages, one constructor per `send_to_slack` call site. -/
inductive SlackMsg where
  /-- `fetch_all_data`'s unconditional summary: total pages and duration. -/
  | fetchSummary (totalPages : Nat) (supplier duration : String)
  /-- The `/process-products` catch-all error message. -/
  | processError (supplier err : String)
  /-- The `/process-products` success notification. -/
  | processSuccess (supplier remotePath : String)
  /-- The `/fetch-products` catch-all error message. -/
  | fetchError (supplier err : String)
  deriving Repr, DecidableEq

/-- `fetch_all_data`: run the fetch loop, then unconditionally post one
summary message reporting the number of fetched pages and the elapsed
duration (wall-clock time is supplied as the opaque `duration`). -/
def fetchAllData (outcomes : List FetchOutcome) (supplier duration : String) :
    List Page × List SlackMsg :=
  let pages := fetchLoop outcomes
  (pages, [.fetchSummary pages.length supplier duration])

/-- The `retrying` library's `exponential_sleep` in milliseconds:
`min(wait_exponential_multiplier * 2 ** previous_attempt_number,
wait_exponential_max)`. -/
def exponentialSleep (multiplier maxWait attemptNumber : Nat) : Nat :=
  min (multiplier * 2 ^ attemptNumber) maxWait

/-- The `retrying` library's attempt loop: run `f` at the current
attempt number, return on success, retry while attempts remain.  Also
returns the number of the attempt that produced the result. -/
def retryCallAux {α : Type} (f : Nat → Except Unit α) : Nat → Nat → Except Unit α × Nat
  | attempt, 0 => (f attempt, attempt)
  | attempt, rem + 1 =>
    match f attempt with
    | .ok a => (.ok a, attempt)
    | .error _ => retryCallAux f (attempt + 1) rem

/-- `retrying.retry` with `stop_max_attempt_number` attempts in total. -/
def retryCall {α : Type} (stopMaxAttemptNumber : Nat) (f : Nat → Except Unit α) :
    Except Unit α × Nat :=
  retryCallAux f 1 (stopMaxAttemptNumber - 1)

/-- Calling a Python `async def` returns its coroutine object without
executing the body, so the call itself never raises; the coroutine is
modelled by its eventual awaited result. -/
def callAsync {α : Type} (body : Except Unit α) : Except Unit (Except Unit α) := .ok body

/-- `fetch_data` as decorated: the synchronous `@retry` wrapper around a
call of the `async def`, returning the wrapper's result together with
the number of attempts it performed. -/
def fetch_data (body : Except Unit Page) : Except Unit (Except Unit Page) × Nat :=
  retryCall 5 (fun _ => callAsync body)

/-- `await fetch_data(...)`: await whatever the decorated call produced. -/
def fetchDataAwaited (body : Except Unit Page) : Except Unit Page :=
  match (fetch_data body).1 with
  | .ok coro => coro
  | .error e => .error e

/-! ### Request handlers -/

/-- The success response body returned by both endpoints. -/
structure SuccessBody where
  message : String
  supplier : String
  filename : String
  total_pages : Nat
  ftp_destination : String
  status : String
  deriving Repr, DecidableEq

/-- An HTTP response: a JSON success body or an error with a `detail`. -/
inductive Resp where
  | ok (body : SuccessBody)
  | httpError (status : Nat) (detail : String)
  deriving Repr, DecidableEq

/-- The outcome of every external interaction a request can perform:
whether token generation succeeds, the awaited result of each page
request in order, whether the CSV `open`/`write` succeeds, whether the
whole FTP upload sequence succeeds, and whether `os.remove` succeeds. -/
structure Env where
  supplier : String
  remotePath : String
  authOk : Bool
  outcomes : List FetchOutcome
  csvIoOk : Bool
  ftpOk : Bool
  removeOk : Bool
  duration : String
  deriving Repr, DecidableEq

/-- What a handler run produces: the HTTP response, the webhook messages
posted in order, and the final local-file state. -/
structure HandlerResult where
  response : Resp
  slack : List SlackMsg
  fileWritten : Bool
  fileDeleted : Bool
  deriving Repr, DecidableEq

/-- The message of the exception `generate_token` raises on a non-200
token response. -/
def authFailureMsg : String := "Failed to generate token"

/-- `str(e)` for the modelled Python exceptions. -/
def errStr : PyErr → String
  | .unboundLocal v => "local variable " ++ v ++ " referenced before assignment"
  | .indexError => "list index out of range"
  | .osError => "os error while writing file"

/-- The `/process-products` handler.  `HTTPException`s raised inside the
`try` block are re-raised by the bare `except HTTPException: raise`
without notifying the webhook; every other exception reaches the
catch-all, which posts the error message and raises a 500. -/
def process_products (env : Env) : HandlerResult :=
  let filename := env.supplier ++ "_prices.csv"
  if env.authOk = false then
    { response := .httpError 500 ("Internal server error: " ++ authFailureMsg)
      slack := [.processError env.supplier authFailureMsg]
      fileWritten := false, fileDeleted := false }
  else
    let fetched := fetchAllData env.outcomes env.supplier env.duration
    let pages := fetched.1
    let summary := fetched.2
    if pages.isEmpty then
      { response := .httpError 404 ("No data found for supplier: " ++ env.supplier)
        slack := summary, fileWritten := false, fileDeleted := false }
    else
      match write_to_csv env.csvIoOk pages with
      | .error e =>
        { response := .httpError 500 ("Internal server error: " ++ errStr e)
          slack := summary ++ [.processError env.supplier (errStr e)]
          fileWritten := false, fileDeleted := false }
      | .ok res =>
        if res.returned = false then
          { response := .httpError 500 "Failed to create CSV file"
            slack := summary, fileWritten := false, fileDeleted := false }
        else if env.ftpOk = false then
          { response := .httpError 500 "Failed to upload file to FTP"
            slack := summary, fileWritten := true, fileDeleted := false }
        else
          { response := .ok ⟨"Prices processed and updated successfully", env.supplier,
              filename, pages.length, env.remotePath, "completed"⟩
            slack := summary ++ [.processSuccess env.supplier env.remotePath]
            fileWritten := true, fileDeleted := env.removeOk }

/-- The `/fetch-products` handler.  The detail CSV is assembled and
written inline (no falsy-data guard); on the all-success path no
success notification is posted — only `fetch_all_data`'s summary. -/
def fetch_products (env : Env) : HandlerResult :=
  let filename := env.supplier ++ "_products.csv"
  if env.authOk = false then
    { response := .httpError 500 ("Internal server error: " ++ authFailureMsg)
      slack := [.fetchError env.supplier authFailureMsg]
      fileWritten := false, fileDeleted := false }
  else
    let fetched := fetchAllData env.outcomes env.supplier env.duration
    let pages := fetched.1
    let summary := fetched.2
    if pages.isEmpty then
      { response := .httpError 404 ("No data found for supplier: " ++ env.supplier)
        slack := summary, fileWritten := false, fileDeleted := false }
    else
      match detailRows pages with
      | .error e =>
        { response := .httpError 500 ("Internal server error: " ++ errStr e)
          slack := summary ++ [.fetchError env.supplier (errStr e)]
          fileWritten := false, fileDeleted := false }
      | .ok _rows =>
        if env.csvIoOk = false then
          { response := .httpError 500 ("Internal server error: " ++ errStr .osError)
            slack := summary ++ [.fetchError env.supplier (errStr .osError)]
            fileWritten := false, fileDeleted := false }
        else if env.ftpOk = false then
          { response := .httpError 500 "Failed to upload file to FTP"
            slack := summary, fileWritten := true, fileDeleted := false }
        else
          { response := .ok ⟨"Products fetched and uploaded successfully", env.supplier,
              filename, pages.length, env.remotePath, "completed"⟩
            slack := summary, fileWritten := true, fileDeleted := env.removeOk }

/-- Is a webhook message one of the handler failure notifications? -/
def isFailureMsg : SlackMsg → Bool
  | .processError _ _ => true
  | .fetchError _ _ => true
  | _ => false

/-- Is a webhook message a success notification? -/
def isSuccessMsg : SlackMsg → Bool
  | .processSuccess _ _ => true
  | _ => false

/-! ### Concrete sample inputs -/

/-- A concrete supplier entry used by sample inputs. -/
def sampleSupplier : Supplier := ⟨some "acme-gmbh", some "9.99"⟩

/-- A concrete fully-populated variant used by sample inputs. -/
def sampleVariant : Variant :=
  ⟨some "4006381333931", some "SKU-1", some "Stift", ["Schreibwaren "], some "8.40",
    some [some "https://img.example.test/1.png"]⟩

/-- A concrete product with one supplier and one variant. -/
def sampleProduct : Product := ⟨some "Stabilo", some "19", [sampleSupplier], [sampleVariant]⟩

/-- A variant carrying only an `article_ean`; every optional field absent. -/
def bareVariant (ean : Option String) : Variant := ⟨ean, none, none, [], none, none⟩

/-- A product with an empty `suppliers` list and one EAN-bearing variant. -/
def noSupplierProduct : Product := ⟨none, none, [], [bareVariant (some "1111111111116")]⟩

/-- A variant whose `multimedia` key is present but holds an empty list. -/
def emptyMultimediaVariant : Variant := ⟨some "2222222222228", none, none, [], none, some []⟩

/-- A product (with a supplier) whose variant has an empty `multimedia` list. -/
def emptyMultimediaProduct : Product := ⟨none, none, [sampleSupplier], [emptyMultimediaVariant]⟩

/-- The image value the detail projection produces on the non-raising
multimedia shapes: the first entry's `source_url` (or `""`). -/
def imageOrEmpty (v : Variant) : String :=
  match v.multimedia with
  | none => ""
  | some [] => ""
  | some (m :: _) => m.getD ""

/-- An environment in which every external interaction succeeds and one
page of one product is fetched. -/
def envOk : Env :=
  { supplier := "acme", remotePath := "/upload/prices.csv", authOk := true
    outcomes := [.ok [sampleProduct]], csvIoOk := true, ftpOk := true, removeOk := true
    duration := "1.23" }

/-- `envOk` with an upstream that yields zero pages. -/
def envNoPages : Env := { envOk with outcomes := [] }

/-- `envOk` with a failing FTP upload. -/
def envFtpDown : Env := { envOk with ftpOk := false }

/-- `envOk` fetching one page whose only product has no suppliers, so
both projections hit the unbound supplier local. -/
def envUnbound : Env := { envOk with outcomes := [.ok [noSupplierProduct]] }

/-- `envOk` with a failing token endpoint. -/
def envAuthFail : Env := { envOk with authOk := false }

/-! ## Theorems -/

/-- With the `supplier_price` local bound to `p`, the variant loop never
raises and emits exactly the truthy-EAN variants, each paired with `p`. -/
theorem priceRowsVariants_some (p : Option String) (vs : List Variant) :
    priceRowsVariants (some p) vs =
      .ok (vs.filterMap fun v =>
        if truthyStr v.article_ean then some ⟨v.article_ean.getD "", p⟩ else none) := by
  induction vs with
  | nil => rfl
  | cons v vs ih =>
    by_cases h : truthyStr v.article_ean
    · simp [priceRowsVariants, h, ih, List.filterMap_cons]
    · simp [priceRowsVariants, h, ih, List.filterMap_cons]

/-- When every product has a non-empty suppliers list, the product loop
never raises and each product's rows use its own head-supplier price. -/
theorem priceRowsProducts_all_bound (prods : List Product) (sp : PyLocal)
    (h : ∀ item ∈ prods, item.suppliers ≠ []) :
    ∃ sp2, priceRowsProducts sp prods =
      .ok (prods.flatMap (fun item =>
        item.variants_list.filterMap fun v =>
          if truthyStr v.article_ean then some ⟨v.article_ean.getD "", headPriceVal item⟩
          else none), sp2) := by
  induction prods generalizing sp with
  | nil => exact ⟨sp, rfl⟩
  | cons item rest ih =>
    have hitem : item.suppliers ≠ [] := h item (List.mem_cons_self _ _)
    obtain ⟨s, ss, hs⟩ : ∃ s ss, item.suppliers = s :: ss := by
      cases hsup : item.suppliers with
      | nil => exact absurd hsup hitem
      | cons s ss => exact ⟨s, ss, rfl⟩
    have hsp2 : updatePrice sp item = some s.price := by
      simp [updatePrice, hs]
    have hval : headPriceVal item = s.price := by
      simp [headPriceVal, hs]
    obtain ⟨sp3, hrest⟩ := ih (some s.price) (fun x hx => h x (List.mem_cons_of_mem _ hx))
    refine ⟨sp3, ?_⟩
    simp [priceRowsProducts, hsp2, priceRowsVariants_some, hrest, hval, List.flatMap_cons]

/-- When every product of every page has a non-empty suppliers list, the
page loop never raises and produces exactly the spec-side projection. -/
theorem priceRowsPages_all_bound (data : List Page) (sp : PyLocal)
    (h : ∀ page ∈ data, ∀ item ∈ page, item.suppliers ≠ []) :
    ∃ sp2, priceRowsPages sp data = .ok (specPriceRows data, sp2) := by
  induction data generalizing sp with
  | nil => exact ⟨sp, rfl⟩
  | cons page rest ih =>
    obtain ⟨sp2, hpage⟩ :=
      priceRowsProducts_all_bound page sp (h page (List.mem_cons_self _ _))
    obtain ⟨sp3, hrest⟩ := ih sp2 (fun x hx => h x (List.mem_cons_of_mem _ hx))
    refine ⟨sp3, ?_⟩
    simp [priceRowsPages, hpage, hrest, specPriceRows, List.flatMap_cons]

/-- C1, counterexample: on a page whose first product has an empty
`suppliers` list and an EAN-bearing variant, `write_to_csv` raises
`UnboundLocalError` on `supplier_price` and emits no rows, while the
claim asks for exactly one row for that variant. -/
theorem c1_price_projection_counterexample :
    write_to_csv true [[noSupplierProduct]] = .error (.unboundLocal "supplier_price") ∧
    (specPriceRows [[noSupplierProduct]]).length = 1 := by
  exact ⟨rfl, rfl⟩

/-- C1 (amended): for every fetched page sequence in which each product
has a non-empty `suppliers` list, `write_to_csv` emits exactly one CSV
data row per variant with a non-empty `article_ean`, pairing the EAN
with that product's first supplier's price, in page→product→variant
traversal order; EAN-less variants produce no row.  (The unamended
claim fails when a product's suppliers list is empty: the code then
reuses a stale `supplier_price` or raises `UnboundLocalError`.) -/
theorem c1_price_projection (data : List Page)
    (h : ∀ page ∈ data, ∀ item ∈ page, item.suppliers ≠ []) :
    write_to_csv true data =
      .ok ⟨data ≠ [], if data.isEmpty then none else some (specPriceRows data)⟩ := by
  obtain ⟨sp2, hpages⟩ := priceRowsPages_all_bound data none h
  cases data with
  | nil => rfl
  | cons page rest =>
    simp only [write_to_csv, List.isEmpty_cons, Bool.false_eq_true, if_false,
      priceRows, hpages, Except.map, if_true]
    simp

/-- C1, witness: the amended theorem applied to a concrete two-page
input, with its hypothesis discharged by evaluation. -/
theorem c1_price_projection_witness :
    write_to_csv true [[sampleProduct], [sampleProduct]] =
      .ok ⟨true, some (specPriceRows [[sampleProduct], [sampleProduct]])⟩ := by
  have h := c1_price_projection [[sampleProduct], [sampleProduct]] (by decide)
  simpa using h

/-- Appending one product updates the carried price exactly as the
`supplier_price` assignment in the loop does. -/
theorem lastBoundPrice_concat (l : List Product) (p : Product) :
    lastBoundPrice (l ++ [p]) = updatePrice (lastBoundPrice l) p := by
  induction l with
  | nil =>
    cases h : p.suppliers with
    | nil => simp [lastBoundPrice, updatePrice, h]
    | cons s ss => simp [lastBoundPrice, updatePrice, h]
  | cons q l ih =>
    simp only [List.cons_append, lastBoundPrice, List.append_eq]
    rw [ih]
    cases h : p.suppliers with
    | nil => simp [updatePrice, h, lastBoundPrice]
    | cons s ss => simp [updatePrice, h]

/-- Appending one product updates the carried name exactly as the
`supplier_name` assignment in the loop does. -/
theorem lastBoundName_concat (l : List Product) (p : Product) :
    lastBoundName (l ++ [p]) = updateName (lastBoundName l) p := by
  induction l with
  | nil =>
    cases h : p.suppliers with
    | nil => simp [lastBoundName, updateName, h]
    | cons s ss => simp [lastBoundName, updateName, h]
  | cons q l ih =>
    simp only [List.cons_append, lastBoundName, List.append_eq]
    rw [ih]
    cases h : p.suppliers with
    | nil => simp [updateName, h, lastBoundName]
    | cons s ss => simp [updateName, h]

/-- The claim-side price emission coincides with the code's variant loop. -/
theorem claimPriceEmit_eq (pr : PyLocal) (vs : List Variant) :
    claimPriceEmit pr vs = priceRowsVariants pr vs := by
  induction vs with
  | nil => rfl
  | cons v vs ih =>
    by_cases h : truthyStr v.article_ean
    · cases pr with
      | none => simp [claimPriceEmit, priceRowsVariants, h]
      | some p => simp [claimPriceEmit, priceRowsVariants, h, ih]
    · simp [claimPriceEmit, priceRowsVariants, h, ih]

/-- The claim-side detail emission coincides with the code's variant loop. -/
theorem claimDetailEmit_eq (nm : PyLocal) (brand tax : Option String) (vs : List Variant) :
    claimDetailEmit nm brand tax vs = detailRowsVariants nm brand tax vs := by
  induction vs with
  | nil => rfl
  | cons v vs ih =>
    cases hi : variantImage v with
    | error e => simp [claimDetailEmit, detailRowsVariants, hi]
    | ok image =>
      by_cases h : truthyStr v.article_ean
      · cases nm with
        | none => simp [claimDetailEmit, detailRowsVariants, hi, h]
        | some s => simp [claimDetailEmit, detailRowsVariants, hi, h, ih]
      · simp [claimDetailEmit, detailRowsVariants, hi, h, ih]

/-- The product loop of the price projection, started from the carried
price of the already-traversed prefix, computes exactly claim C7's
reading, and leaves the carried price of the extended prefix. -/
theorem priceRowsProducts_claim (prods : List Product) (prev : List Product) :
    priceRowsProducts (lastBoundPrice prev) prods =
      Except.map (fun rows => (rows, lastBoundPrice (prev ++ prods)))
        (claimPriceAux prev prods) := by
  induction prods generalizing prev with
  | nil => simp [priceRowsProducts, claimPriceAux, Except.map]
  | cons item rest ih =>
    have hsp : updatePrice (lastBoundPrice prev) item = lastBoundPrice (prev ++ [item]) :=
      (lastBoundPrice_concat prev item).symm
    have ihx := ih (prev ++ [item])
    have hassoc : (prev ++ [item]) ++ rest = prev ++ item :: rest := by simp
    rw [hassoc] at ihx
    simp only [priceRowsProducts, claimPriceAux, hsp, claimPriceEmit_eq]
    cases hv : priceRowsVariants (lastBoundPrice (prev ++ [item])) item.variants_list with
    | error e => simp [Except.map]
    | ok rows =>
      rw [ihx]
      cases hc : claimPriceAux (prev ++ [item]) rest with
      | error e => simp [Except.map]
      | ok more => simp [Except.map]

/-- The product loop of the detail projection, started from the carried
name of the already-traversed prefix, computes exactly claim C7's
reading, and leaves the carried name of the extended prefix. -/
theorem detailRowsProducts_claim (prods : List Product) (prev : List Product) :
    detailRowsProducts (lastBoundName prev) prods =
      Except.map (fun rows => (rows, lastBoundName (prev ++ prods)))
        (claimDetailAux prev prods) := by
  induction prods generalizing prev with
  | nil => simp [detailRowsProducts, claimDetailAux, Except.map]
  | cons item rest ih =>
    have hsn : updateName (lastBoundName prev) item = lastBoundName (prev ++ [item]) :=
      (lastBoundName_concat prev item).symm
    have ihx := ih (prev ++ [item])
    have hassoc : (prev ++ [item]) ++ rest = prev ++ item :: rest := by simp
    rw [hassoc] at ihx
    simp only [detailRowsProducts, claimDetailAux, hsn, claimDetailEmit_eq]
    cases hv : detailRowsVariants (lastBoundName (prev ++ [item])) item.brand_name
        item.tax_in_percentage item.variants_list with
    | error e => simp [Except.map]
    | ok rows =>
      rw [ihx]
      cases hc : claimDetailAux (prev ++ [item]) rest with
      | error e => simp [Except.map]
      | ok more => simp [Except.map]

/-- Splitting the product loop of the price projection at an append. -/
theorem priceRowsProducts_append (l₁ l₂ : List Product) (sp : PyLocal) :
    priceRowsProducts sp (l₁ ++ l₂) =
      match priceRowsProducts sp l₁ with
      | .error e => .error e
      | .ok (r₁, sp₁) =>
        match priceRowsProducts sp₁ l₂ with
        | .error e => .error e
        | .ok (r₂, sp₂) => .ok (r₁ ++ r₂, sp₂) := by
  induction l₁ generalizing sp with
  | nil =>
    cases h : priceRowsProducts sp l₂ with
    | error e => simp [priceRowsProducts, h]
    | ok r => cases r with | mk r₂ sp₂ => simp [priceRowsProducts, h]
  | cons item rest ih =>
    simp only [List.cons_append, priceRowsProducts]
    cases hv : priceRowsVariants (updatePrice sp item) item.variants_list with
    | error e => rfl
    | ok rows =>
      dsimp only
      simp only [List.append_eq]
      rw [ih]
      cases hr : priceRowsProducts (updatePrice sp item) rest with
      | error e => rfl
      | ok r =>
        cases r with
        | mk more sp3 =>
          dsimp only
          cases h₂ : priceRowsProducts sp3 l₂ with
          | error e => simp [h₂]
          | ok r₂ => cases r₂ with | mk m₂ sp₂ => simp [h₂, List.append_assoc]

/-- Splitting the product loop of the detail projection at an append. -/
theorem detailRowsProducts_append (l₁ l₂ : List Product) (sn : PyLocal) :
    detailRowsProducts sn (l₁ ++ l₂) =
      match detailRowsProducts sn l₁ with
      | .error e => .error e
      | .ok (r₁, sn₁) =>
        match detailRowsProducts sn₁ l₂ with
        | .error e => .error e
        | .ok (r₂, sn₂) => .ok (r₁ ++ r₂, sn₂) := by
  induction l₁ generalizing sn with
  | nil =>
    cases h : detailRowsProducts sn l₂ with
    | error e => simp [detailRowsProducts, h]
    | ok r => cases r with | mk r₂ sn₂ => simp [detailRowsProducts, h]
  | cons item rest ih =>
    simp only [List.cons_append, detailRowsProducts]
    cases hv : detailRowsVariants (updateName sn item) item.brand_name
        item.tax_in_percentage item.variants_list with
    | error e => rfl
    | ok rows =>
      dsimp only
      simp only [List.append_eq]
      rw [ih]
      cases hr : detailRowsProducts (updateName sn item) rest with
      | error e => rfl
      | ok r =>
        cases r with
        | mk more sn3 =>
          dsimp only
          cases h₂ : detailRowsProducts sn3 l₂ with
          | error e => simp [h₂]
          | ok r₂ => cases r₂ with | mk m₂ sn₂ => simp [h₂, List.append_assoc]

/-- The page loop of the price projection equals the product loop over
the flattened page sequence. -/
theorem priceRowsPages_flatten (data : List Page) (sp : PyLocal) :
    priceRowsPages sp data = priceRowsProducts sp (data.flatMap id) := by
  induction data generalizing sp with
  | nil => rfl
  | cons page rest ih =>
    simp only [List.flatMap_cons, id, priceRowsPages, priceRowsProducts_append]
    cases h : priceRowsProducts sp page with
    | error e => rfl
    | ok r =>
      cases r with
      | mk rows sp2 =>
        dsimp only
        rw [ih]

/-- The page loop of the detail projection equals the product loop over
the flattened page sequence. -/
theorem detailRowsPages_flatten (data : List Page) (sn : PyLocal) :
    detailRowsPages sn data = detailRowsProducts sn (data.flatMap id) := by
  induction data generalizing sn with
  | nil => rfl
  | cons page rest ih =>
    simp only [List.flatMap_cons, id, detailRowsPages, detailRowsProducts_append]
    cases h : detailRowsProducts sn page with
    | error e => rfl
    | ok r =>
      cases r with
      | mk rows sn2 =>
        dsimp only
        rw [ih]

/-- The price projection computes claim C7's reading on every input. -/
theorem priceRows_eq_claim (data : List Page) : priceRows data = claimPriceRows data := by
  have h := priceRowsProducts_claim (data.flatMap id) []
  simp only [lastBoundPrice, List.nil_append] at h
  unfold priceRows claimPriceRows
  rw [priceRowsPages_flatten, h]
  cases hc : claimPriceAux [] (data.flatMap id) with
  | error e => rfl
  | ok rows => rfl

/-- The detail projection computes claim C7's reading on every input. -/
theorem detailRows_eq_claim (data : List Page) : detailRows data = claimDetailRows data := by
  have h := detailRowsProducts_claim (data.flatMap id) []
  simp only [lastBoundName, List.nil_append] at h
  unfold detailRows claimDetailRows
  rw [detailRowsPages_flatten, h]
  cases hc : claimDetailAux [] (data.flatMap id) with
  | error e => rfl
  | ok rows => rfl

/-- C7: in both projections, the rows of a product with an empty or
absent suppliers list reuse the supplier price (price projection) resp.
supplier name (detail projection) of the most recent preceding product
in traversal order with a non-empty suppliers list — the carried local
equals that of the most recent suppliers-bearing product up to and
including the current one — and a variant that must be emitted while no
such product exists raises `UnboundLocalError` instead of producing
rows, which the handlers report as a 500. -/
theorem c7_carried_supplier_local (data : List Page) (env : Env) :
    priceRows data = claimPriceRows data ∧
    detailRows data = claimDetailRows data ∧
    (env.authOk = true → fetchLoop env.outcomes ≠ [] →
      priceRows (fetchLoop env.outcomes) = .error (.unboundLocal "supplier_price") →
      (process_products env).response =
        .httpError 500 ("Internal server error: " ++ errStr (.unboundLocal "supplier_price"))) ∧
    (env.authOk = true → fetchLoop env.outcomes ≠ [] →
      detailRows (fetchLoop env.outcomes) = .error (.unboundLocal "supplier_name") →
      (fetch_products env).response =
        .httpError 500 ("Internal server error: " ++ errStr (.unboundLocal "supplier_name"))) := by
  refine ⟨priceRows_eq_claim data, detailRows_eq_claim data, ?_, ?_⟩
  · intro hauth hne herr
    cases hp : fetchLoop env.outcomes with
    | nil => exact absurd hp hne
    | cons a l =>
      rw [hp] at herr
      simp [process_products, hauth, fetchAllData, hp, write_to_csv, herr]
  · intro hauth hne herr
    cases hp : fetchLoop env.outcomes with
    | nil => exact absurd hp hne
    | cons a l =>
      rw [hp] at herr
      simp [fetch_products, hauth, fetchAllData, hp, herr]

/-- C7, witness: on a fetched page whose only product has an empty
suppliers list, both projections match the claim-side reading and the
`/process-products` handler returns the 500 produced by the
`UnboundLocalError`. -/
theorem c7_carried_supplier_local_witness :
    priceRows [[noSupplierProduct]] = claimPriceRows [[noSupplierProduct]] ∧
    (process_products envUnbound).response =
      .httpError 500 ("Internal server error: " ++ errStr (.unboundLocal "supplier_price")) ∧
    (fetch_products envUnbound).response =
      .httpError 500 ("Internal server error: " ++ errStr (.unboundLocal "supplier_name")) := by
  refine ⟨(c7_carried_supplier_local [[noSupplierProduct]] envUnbound).1, ?_, ?_⟩
  · exact (c7_carried_supplier_local [[noSupplierProduct]] envUnbound).2.2.1
      (by decide) (by decide) (by rfl)
  · exact (c7_carried_supplier_local [[noSupplierProduct]] envUnbound).2.2.2
      (by decide) (by decide) (by rfl)

/-- C3, counterexample: a variant whose `multimedia` key holds an empty
list makes the detail projection raise `IndexError` at the `[0]`
subscript, although the claim promises no raise and an empty-string
substitute for a missing-or-empty image. -/
theorem c3_optional_fields_counterexample :
    detailRows [[emptyMultimediaProduct]] = .error .indexError := by
  rfl

/-- C3 (amended): the detail projection substitutes the empty string for
a missing German name, a missing or empty German category tree and an
absent `multimedia` key, and still emits the row for a non-empty EAN;
but a present-and-empty `multimedia` list is not covered — it raises
`IndexError` (see the counterexample). -/
theorem c3_optional_fields (v : Variant) (nm : Option String) (brand tax : Option String) :
    (v.name_german = none → variantName v = "") ∧
    (v.category_german = [] → variantCategory v = "") ∧
    (v.multimedia = none → variantImage v = .ok "") ∧
    (truthyStr v.article_ean = true → v.multimedia ≠ some [] →
      variantImage v = .ok (imageOrEmpty v) ∧
      detailRowsVariants (some nm) brand tax [v] =
        .ok [⟨v.article_ean.getD "", v.seller_sku_id, variantName v, nm, brand, tax,
          variantCategory v, imageOrEmpty v⟩]) := by
  refine ⟨?_, ?_, ?_, ?_⟩
  · intro h; simp [variantName, h]
  · intro h; simp [variantCategory, h]
  · intro h; simp [variantImage, h]
  · intro hean hmm
    have himg : variantImage v = .ok (imageOrEmpty v) := by
      cases hm : v.multimedia with
      | none => simp [variantImage, imageOrEmpty, hm]
      | some l =>
        cases l with
        | nil => exact absurd hm hmm
        | cons m ms => simp [variantImage, imageOrEmpty, hm]
    refine ⟨himg, ?_⟩
    simp [detailRowsVariants, himg, hean]

/-- C3, witness: the amended theorem applied to a variant with every
optional field absent, all hypotheses discharged by evaluation. -/
theorem c3_optional_fields_witness :
    variantName (bareVariant (some "1111111111116")) = "" ∧
    variantCategory (bareVariant (some "1111111111116")) = "" ∧
    variantImage (bareVariant (some "1111111111116")) = .ok "" ∧
    detailRowsVariants (some (some "acme-gmbh")) none none [bareVariant (some "1111111111116")] =
      .ok [⟨"1111111111116", none, "", some "acme-gmbh", none, none, "", ""⟩] := by
  have h := c3_optional_fields (bareVariant (some "1111111111116")) (some "acme-gmbh") none none
  obtain ⟨h1, h2, h3, h4⟩ := h
  obtain ⟨himg, hrow⟩ := h4 (by decide) (by decide)
  exact ⟨h1 rfl, h2 rfl, h3 rfl, hrow.trans (by rfl)⟩

/-- C4, counterexample: for a page request whose awaited body fails, the
decorated `fetch_data` call performs exactly one attempt — not five —
and the awaited result is the un-retried failure; moreover the first
configured backoff wait is 2000 ms, not the claimed 1 second. -/
theorem c4_retry_counterexample :
    (fetch_data (.error ())).2 = 1 ∧
    fetchDataAwaited (.error ()) = .error () ∧
    exponentialSleep 1000 10000 1 = 2000 := by
  exact ⟨rfl, rfl, rfl⟩

/-- C4 (amended): `fetch_data` is decorated with the synchronous
`retrying` policy `stop_max_attempt_number=5` and waits
`min(1000·2^n, 10000)` ms (2 s, 4 s, 8 s, then capped at 10 s — the
policy that would apply if failures were visible to the wrapper, shown
here on a synchronously failing function); but because `fetch_data` is
an `async def`, calling it returns the coroutine without raising, so the
wrapper always succeeds on attempt 1 and awaited failures are never
retried: the fetch loop treats the first failure as end-of-data. -/
theorem c4_retry_decorator (body : Except Unit Page) :
    fetch_data body = (.ok body, 1) ∧
    fetchDataAwaited body = body ∧
    retryCall 5 (fun _ => (.error () : Except Unit Page)) = (.error (), 5) ∧
    (exponentialSleep 1000 10000 1, exponentialSleep 1000 10000 2,
      exponentialSleep 1000 10000 3, exponentialSleep 1000 10000 4) =
      (2000, 4000, 8000, 10000) ∧
    (∀ rest, fetchLoop (.err :: rest) = []) := by
  refine ⟨rfl, rfl, rfl, by decide, fun rest => rfl⟩

/-- C9: `fetch_all_data` posts exactly one webhook message, after the
loop, unconditionally — also when zero pages were fetched — and the
message reports the number of fetched pages and the elapsed duration
(wall-clock time enters the model as the opaque `duration` argument). -/
theorem c9_fetch_summary_unconditional (outcomes : List FetchOutcome)
    (supplier duration : String) :
    (fetchAllData outcomes supplier duration).2 =
      [SlackMsg.fetchSummary (fetchAllData outcomes supplier duration).1.length
        supplier duration] ∧
    (fetchAllData [] supplier duration).2 = [SlackMsg.fetchSummary 0 supplier duration] := by
  exact ⟨rfl, rfl⟩

/-- C8: with authentication succeeding and the fetch loop yielding zero
pages, both endpoints respond 404 with a detail naming the supplier. -/
theorem c8_zero_pages_404 (env : Env)
    (hauth : env.authOk = true) (hz : fetchLoop env.outcomes = []) :
    (process_products env).response =
      .httpError 404 ("No data found for supplier: " ++ env.supplier) ∧
    (fetch_products env).response =
      .httpError 404 ("No data found for supplier: " ++ env.supplier) := by
  constructor
  · simp [process_products, hauth, fetchAllData, hz]
  · simp [fetch_products, hauth, fetchAllData, hz]

/-- C8, witness: the theorem evaluated on a zero-page environment. -/
theorem c8_zero_pages_404_witness :
    (process_products envNoPages).response =
      .httpError 404 "No data found for supplier: acme" ∧
    (fetch_products envNoPages).response =
      .httpError 404 "No data found for supplier: acme" := by
  have h := c8_zero_pages_404 envNoPages rfl rfl
  exact ⟨h.1.trans (by rfl), h.2.trans (by rfl)⟩

/-- C5: whenever the FTP upload fails after a successful fetch and CSV
write, both handlers respond 500 with detail `Failed to upload file to
FTP` and the local CSV file stays in place — `os.remove` is only on the
success path. -/
theorem c5_ftp_failure_no_cleanup (env : Env)
    (hauth : env.authOk = true)
    (hp : fetchLoop env.outcomes ≠ [])
    (hio : env.csvIoOk = true)
    (hftp : env.ftpOk = false)
    (hrowsP : ∃ rows, priceRows (fetchLoop env.outcomes) = .ok rows)
    (hrowsD : ∃ drows, detailRows (fetchLoop env.outcomes) = .ok drows) :
    (process_products env).response = .httpError 500 "Failed to upload file to FTP" ∧
    (process_products env).fileWritten = true ∧
    (process_products env).fileDeleted = false ∧
    (fetch_products env).response = .httpError 500 "Failed to upload file to FTP" ∧
    (fetch_products env).fileWritten = true ∧
    (fetch_products env).fileDeleted = false := by
  obtain ⟨rows, hrows⟩ := hrowsP
  obtain ⟨drows, hdrows⟩ := hrowsD
  cases hpl : fetchLoop env.outcomes with
  | nil => exact absurd hpl hp
  | cons a l =>
    rw [hpl] at hrows hdrows
    refine ⟨?_, ?_, ?_, ?_, ?_, ?_⟩ <;>
      simp [process_products, fetch_products, hauth, fetchAllData, hpl, write_to_csv,
        hrows, hdrows, hio, hftp]

/-- C5, witness: the theorem evaluated on an environment whose FTP
upload fails. -/
theorem c5_ftp_failure_no_cleanup_witness :
    (process_products envFtpDown).response = .httpError 500 "Failed to upload file to FTP" ∧
    (process_products envFtpDown).fileDeleted = false ∧
    (fetch_products envFtpDown).response = .httpError 500 "Failed to upload file to FTP" ∧
    (fetch_products envFtpDown).fileDeleted = false := by
  have h := c5_ftp_failure_no_cleanup envFtpDown rfl (by decide) rfl rfl ⟨_, rfl⟩ ⟨_, rfl⟩
  exact ⟨h.1, h.2.2.1, h.2.2.2.1, h.2.2.2.2.2⟩

/-- C6, counterexample: on an all-success request, `/fetch-products`
completes (body status `completed`) but posts no success notification —
its webhook traffic is only the fetch summary — contradicting the claim
that every successful request to either endpoint posts one. -/
theorem c6_success_notification_counterexample :
    (fetch_products envOk).response =
      .ok ⟨"Products fetched and uploaded successfully", "acme", "acme_products.csv", 1,
        "/upload/prices.csv", "completed"⟩ ∧
    (fetch_products envOk).slack.any isSuccessMsg = false := by
  exact ⟨rfl, rfl⟩

/-- C6 (amended): on an all-success request both handlers run
fetch → transform+write → upload → cleanup and return exactly the body
`{message, supplier, filename, total_pages, ftp_destination,
status:"completed"}` with `total_pages` the number of fetched pages;
`/process-products` then posts a success notification, while
`/fetch-products` posts none (its webhook traffic is only the fetch
summary). -/
theorem c6_success_path (env : Env)
    (hauth : env.authOk = true)
    (hp : fetchLoop env.outcomes ≠ [])
    (hio : env.csvIoOk = true)
    (hftp : env.ftpOk = true)
    (hrowsP : ∃ rows, priceRows (fetchLoop env.outcomes) = .ok rows)
    (hrowsD : ∃ drows, detailRows (fetchLoop env.outcomes) = .ok drows) :
    process_products env =
      { response := .ok ⟨"Prices processed and updated successfully", env.supplier,
          env.supplier ++ "_prices.csv", (fetchLoop env.outcomes).length, env.remotePath,
          "completed"⟩
        slack := [.fetchSummary (fetchLoop env.outcomes).length env.supplier env.duration,
          .processSuccess env.supplier env.remotePath]
        fileWritten := true, fileDeleted := env.removeOk } ∧
    fetch_products env =
      { response := .ok ⟨"Products fetched and uploaded successfully", env.supplier,
          env.supplier ++ "_products.csv", (fetchLoop env.outcomes).length, env.remotePath,
          "completed"⟩
        slack := [.fetchSummary (fetchLoop env.outcomes).length env.supplier env.duration]
        fileWritten := true, fileDeleted := env.removeOk } := by
  obtain ⟨rows, hrows⟩ := hrowsP
  obtain ⟨drows, hdrows⟩ := hrowsD
  cases hpl : fetchLoop env.outcomes with
  | nil => exact absurd hpl hp
  | cons a l =>
    rw [hpl] at hrows hdrows
    constructor <;>
      simp [process_products, fetch_products, hauth, fetchAllData, hpl, write_to_csv,
        hrows, hdrows, hio, hftp]

/-- C6, witness: the amended theorem evaluated on an all-success
environment. -/
theorem c6_success_path_witness :
    process_products envOk =
      { response := .ok ⟨"Prices processed and updated successfully", "acme",
          "acme_prices.csv", 1, "/upload/prices.csv", "completed"⟩
        slack := [.fetchSummary 1 "acme" "1.23", .processSuccess "acme" "/upload/prices.csv"]
        fileWritten := true, fileDeleted := true } := by
  have h := c6_success_path envOk rfl (by decide) rfl rfl ⟨_, rfl⟩ ⟨_, rfl⟩
  exact h.1.trans (by rfl)

/-- C2, counterexample: the zero-pages error and the FTP error are both
converted to HTTP error responses, but neither posts a failure message
to the webhook — the bare `except HTTPException: raise` skips the
notifier — contradicting "every error is also reported via the
notifier". -/
theorem c2_error_notification_counterexample :
    (process_products envNoPages).response =
      .httpError 404 "No data found for supplier: acme" ∧
    (process_products envNoPages).slack.any isFailureMsg = false ∧
    (process_products envFtpDown).response =
      .httpError 500 "Failed to upload file to FTP" ∧
    (process_products envFtpDown).slack.any isFailureMsg = false ∧
    (fetch_products envNoPages).response =
      .httpError 404 "No data found for supplier: acme" ∧
    (fetch_products envNoPages).slack.any isFailureMsg = false ∧
    (fetch_products envFtpDown).response =
      .httpError 500 "Failed to upload file to FTP" ∧
    (fetch_products envFtpDown).slack.any isFailureMsg = false := by
  exact ⟨rfl, rfl, rfl, rfl, rfl, rfl, rfl, rfl⟩

/-- C2 (amended): on both endpoints every error is converted into an
HTTP error response, but a failure message is posted to the webhook
only for errors reaching the generic catch-all (auth failure,
unexpected exceptions such as the projection errors); errors raised as
`HTTPException` — zero-pages 404, CSV-write 500, FTP-upload 500 — are
re-raised without posting one. -/
theorem c2_error_notification (env : Env) :
    (env.authOk = false →
      (process_products env).response =
        .httpError 500 ("Internal server error: " ++ authFailureMsg) ∧
      (process_products env).slack.any isFailureMsg = true ∧
      (fetch_products env).response =
        .httpError 500 ("Internal server error: " ++ authFailureMsg) ∧
      (fetch_products env).slack.any isFailureMsg = true) ∧
    (env.authOk = true → fetchLoop env.outcomes = [] →
      (process_products env).response =
        .httpError 404 ("No data found for supplier: " ++ env.supplier) ∧
      (process_products env).slack.any isFailureMsg = false ∧
      (fetch_products env).response =
        .httpError 404 ("No data found for supplier: " ++ env.supplier) ∧
      (fetch_products env).slack.any isFailureMsg = false) ∧
    (∀ e, env.authOk = true → fetchLoop env.outcomes ≠ [] →
      priceRows (fetchLoop env.outcomes) = .error e →
      (process_products env).response =
        .httpError 500 ("Internal server error: " ++ errStr e) ∧
      (process_products env).slack.any isFailureMsg = true) ∧
    (∀ e, env.authOk = true → fetchLoop env.outcomes ≠ [] →
      detailRows (fetchLoop env.outcomes) = .error e →
      (fetch_products env).response =
        .httpError 500 ("Internal server error: " ++ errStr e) ∧
      (fetch_products env).slack.any isFailureMsg = true) ∧
    (env.authOk = true → fetchLoop env.outcomes ≠ [] → env.csvIoOk = true →
      env.ftpOk = false →
      (∃ rows, priceRows (fetchLoop env.outcomes) = .ok rows) →
      (process_products env).response = .httpError 500 "Failed to upload file to FTP" ∧
      (process_products env).slack.any isFailureMsg = false) ∧
    (env.authOk = true → fetchLoop env.outcomes ≠ [] → env.csvIoOk = true →
      env.ftpOk = false →
      (∃ drows, detailRows (fetchLoop env.outcomes) = .ok drows) →
      (fetch_products env).response = .httpError 500 "Failed to upload file to FTP" ∧
      (fetch_products env).slack.any isFailureMsg = false) := by
  refine ⟨?_, ?_, ?_, ?_, ?_, ?_⟩
  · intro hauth
    refine ⟨?_, ?_, ?_, ?_⟩ <;> simp [process_products, fetch_products, hauth, isFailureMsg]
  · intro hauth hz
    refine ⟨?_, ?_, ?_, ?_⟩ <;>
      simp [process_products, fetch_products, hauth, fetchAllData, hz, isFailureMsg]
  · intro e hauth hp herr
    cases hpl : fetchLoop env.outcomes with
    | nil => exact absurd hpl hp
    | cons a l =>
      rw [hpl] at herr
      constructor <;>
        simp [process_products, hauth, fetchAllData, hpl, write_to_csv, herr, isFailureMsg]
  · intro e hauth hp herr
    cases hpl : fetchLoop env.outcomes with
    | nil => exact absurd hpl hp
    | cons a l =>
      rw [hpl] at herr
      constructor <;>
        simp [fetch_products, hauth, fetchAllData, hpl, herr, isFailureMsg]
  · intro hauth hp hio hftp hrowsP
    obtain ⟨rows, hrows⟩ := hrowsP
    cases hpl : fetchLoop env.outcomes with
    | nil => exact absurd hpl hp
    | cons a l =>
      rw [hpl] at hrows
      constructor <;>
        simp [process_products, hauth, fetchAllData, hpl, write_to_csv, hrows, hio, hftp,
          isFailureMsg]
  · intro hauth hp hio hftp hrowsD
    obtain ⟨drows, hdrows⟩ := hrowsD
    cases hpl : fetchLoop env.outcomes with
    | nil => exact absurd hpl hp
    | cons a l =>
      rw [hpl] at hdrows
      constructor <;>
        simp [fetch_products, hauth, fetchAllData, hpl, hdrows, hio, hftp, isFailureMsg]

/-- C2, witness: the amended theorem evaluated on concrete auth-failure,
zero-pages, projection-error and FTP-failure environments, exercising
every conjunct on both endpoints. -/
theorem c2_error_notification_witness :
    (process_products envAuthFail).response =
      .httpError 500 ("Internal server error: " ++ authFailureMsg) ∧
    (process_products envAuthFail).slack.any isFailureMsg = true ∧
    (fetch_products envAuthFail).slack.any isFailureMsg = true ∧
    (process_products envNoPages).slack.any isFailureMsg = false ∧
    (fetch_products envNoPages).slack.any isFailureMsg = false ∧
    (process_products envUnbound).slack.any isFailureMsg = true ∧
    (fetch_products envUnbound).slack.any isFailureMsg = true ∧
    (process_products envFtpDown).slack.any isFailureMsg = false ∧
    (fetch_products envFtpDown).slack.any isFailureMsg = false := by
  have h1 := (c2_error_notification envAuthFail).1 rfl
  have h2 := (c2_error_notification envNoPages).2.1 rfl rfl
  have h3 := (c2_error_notification envUnbound).2.2.1
    (.unboundLocal "supplier_price") rfl (by decide) rfl
  have h4 := (c2_error_notification envUnbound).2.2.2.1
    (.unboundLocal "supplier_name") rfl (by decide) rfl
  have h5 := (c2_error_notification envFtpDown).2.2.2.2.1 rfl (by decide) rfl rfl ⟨_, rfl⟩
  have h6 := (c2_error_notification envFtpDown).2.2.2.2.2 rfl (by decide) rfl rfl ⟨_, rfl⟩
  exact ⟨h1.1, h1.2.1, h1.2.2.2, h2.2.1, h2.2.2.2, h3.2, h4.2, h5.2, h6.2⟩

/-- No string starting with the catch-all prefix is the CSV-failure
detail. -/
theorem internalServerError_ne (s : String) :
    ("Internal server error: " ++ s) ≠ "Failed to create CSV file" := by
  intro h
  have h2 : ("Internal server error: " ++ s).data.head? = some 'I' := by
    cases s with
    | mk l => rfl
  rw [h] at h2
  simp at h2

/-- On a non-empty input, `write_to_csv` never returns `False`: it
either raises or returns `True`. -/
theorem write_to_csv_cons_returned (ioOk : Bool) (a : Page) (l : List Page)
    (res : CsvOutcome) (h : write_to_csv ioOk (a :: l) = .ok res) :
    res.returned = true := by
  rw [write_to_csv] at h
  simp only [List.isEmpty_cons, Bool.false_eq_true, if_false] at h
  cases hr : priceRows (a :: l) with
  | error e => rw [hr] at h; exact absurd h (by simp)
  | ok rows =>
    rw [hr] at h
    cases hio : ioOk with
    | false => rw [hio] at h; exact absurd h (by simp)
    | true =>
      rw [hio] at h
      simp only [if_true] at h
      cases h
      rfl

/-- C10: `write_to_csv` returns `False` exactly on empty input, writing
no file in that case; and since `/process-products` reaches the CSV step
only after the non-empty check, the `Failed to create CSV file` 500 is
unreachable: no environment produces that response. -/
theorem c10_csv_branch_unreachable :
    (∀ (ioOk : Bool) (data : List Page) (res : CsvOutcome),
      write_to_csv ioOk data = .ok res →
        ((res.returned = false ↔ data = []) ∧ (data = [] → res.file = none))) ∧
    (∀ env, (process_products env).response ≠ .httpError 500 "Failed to create CSV file") := by
  constructor
  · intro ioOk data res h
    cases data with
    | nil =>
      rw [write_to_csv] at h
      simp only [List.isEmpty_nil, if_true] at h
      cases h
      simp
    | cons a l =>
      have hret := write_to_csv_cons_returned ioOk a l res h
      simp [hret]
  · intro env
    by_cases hauth : env.authOk = false
    · simp only [process_products, hauth, if_true]
      intro h
      injection h with h1 h2
      exact internalServerError_ne authFailureMsg h2
    · have hauth' : env.authOk = true := by
        revert hauth; cases env.authOk <;> simp
      cases hpl : fetchLoop env.outcomes with
      | nil =>
        simp only [process_products, hauth']
        simp [fetchAllData, hpl]
      | cons a l =>
        cases hw : write_to_csv env.csvIoOk (a :: l) with
        | error e =>
          simp only [process_products, hauth']
          simp only [fetchAllData, hpl]
          simp [hw]
          intro h
          exact internalServerError_ne (errStr e) h
        | ok res =>
          have hret := write_to_csv_cons_returned env.csvIoOk a l res hw
          simp only [process_products, hauth']
          simp only [fetchAllData, hpl]
          simp [hw, hret]
          by_cases hftp : env.ftpOk = false
          · simp [hftp]
          · have hftp' : env.ftpOk = true := by
              revert hftp; cases env.ftpOk <;> simp
            simp [hftp']

/-- C10, witness: the iff instantiated at the empty input, and the
unreachability instantiated at a concrete environment. -/
theorem c10_csv_branch_unreachable_witness :
    (((⟨false, none⟩ : CsvOutcome).returned = false ↔ ([] : List Page) = []) ∧
      (([] : List Page) = [] → (⟨false, none⟩ : CsvOutcome).file = none)) ∧
    (process_products envOk).response ≠ .httpError 500 "Failed to create CSV file" := by
  exact ⟨c10_csv_branch_unreachable.1 true [] ⟨false, none⟩ rfl,
    c10_csv_branch_unreachable.2 envOk⟩

end SupplierPrices
